import Mathlib

/-!
Shallow embedding of the dual-target policy compiler of
`src/pages/provider/policies/DatasetPolicyEdit.tsx`:
the policy model (`Dataset`, `PolicyConfig`), the identifier generator
(`generateUUID`), the IDS compiler (`generateIDSPolicy`) and the ODRL
compiler (`generateODRLPolicy`).

Modelling conventions:
- JSON objects of fixed shape become Lean structures whose fields follow
  the source key order; `@`-prefixed keys are rendered `atId`, `atType`,
  `atValue`, `atContext`; `dc:`/`ids:` prefixed keys drop the colon.
- Optional TypeScript fields (`consumers?`, `maxUsageCount?`, ...) become
  `Option`; JavaScript truthiness of a possibly-missing string is
  "present and non-empty", of a possibly-missing number "present and
  non-zero".
- The source mutates element 0 of the singleton permission list in place;
  the embedding rebuilds the document with the updated singleton list,
  which is observationally the same final document.
- `new Date().toISOString()` in the ODRL compiler is the one impure input;
  it is modelled as an explicit `now : String` argument.
- `JSON.stringify` serialization is not modelled; claims are settled on
  the structured documents, whose fields are in bijection with the
  serialized keys.
- `Math.random() * 16 | 0` yields an integer in `0..15`; the stream of
  successive draws is modelled as `rand : Nat → Fin 16`, consumed in
  match order by the template replacement.
-/

/-- Source: `interface Dataset` (id, name, description, uuid). -/
structure Dataset where
  id : Int
  name : String
  description : String
  uuid : String
deriving DecidableEq, Repr

/-- Source: `type PolicyType = 'restrict_consumer' | 'restrict_connector' | 'time_limit' | 'usage_count'`. -/
inductive PolicyType where
  | restrict_consumer
  | restrict_connector
  | time_limit
  | usage_count
deriving DecidableEq, Repr

/-- Source: `interface PolicyConfig` with one mandatory tag and five
optional parameter fields. -/
structure PolicyConfig where
  type : PolicyType
  consumers : Option (List String)
  connectors : Option (List String)
  startTime : Option String
  endTime : Option String
  maxUsageCount : Option Int
deriving DecidableEq, Repr

/-- JavaScript truthiness of an optional string: present and non-empty. -/
def truthyStr : Option String → Bool
  | none => false
  | some s => !s.isEmpty

/-- JavaScript truthiness of an optional (integer) number: present and
non-zero. -/
def truthyInt : Option Int → Bool
  | none => false
  | some n => n != 0

/-- JavaScript truthiness of an optional array combined with a length
check, as in `config.consumers && config.consumers.length > 0`. -/
def truthyNonemptyList : Option (List String) → Bool
  | none => false
  | some l => !l.isEmpty

/-- A JSON-LD node reference `{"@id": ...}`. -/
structure IDSRef where
  atId : String
deriving DecidableEq, Repr

/-- A JSON-LD typed literal `{"@value": ..., "@type": ...}` as used in
IDS `ids:rightOperand` entries: the value is always a string in the
source (`config.maxUsageCount.toString()` for the count case). -/
structure IDSTypedValue where
  atValue : String
  atType : String
deriving DecidableEq, Repr

/-- One element of an `ids:constraint` list. -/
structure IDSConstraint where
  atType : String
  leftOperand : IDSRef
  operator : IDSRef
  rightOperand : List IDSTypedValue
deriving DecidableEq, Repr

/-- One element of the `ids:permission` list; `constraint` is absent on
the base document and attached by some variants. -/
structure IDSPermission where
  target : IDSRef
  action : List IDSRef
  constraint : Option (List IDSConstraint)
deriving DecidableEq, Repr

/-- The `@context` prefix map of the IDS document. -/
structure IDSContext where
  ids : String
  idsc : String
deriving DecidableEq, Repr

/-- The IDS `ContractAgreement` document. `consumer` is a plain string in
the base document and stays a plain string when overwritten by the
`restrict_consumer` variant. -/
structure IDSPolicy where
  atContext : IDSContext
  atType : String
  atId : String
  profile : String
  provider : String
  consumer : String
  permission : List IDSPermission
deriving DecidableEq, Repr

/-- The base IDS document (`basePolicy` local of `generateIDSPolicy`),
before the variant switch runs. -/
def baseIDSPolicy (dataset : Dataset) : IDSPolicy :=
  { atContext := { ids := "https://w3id.org/idsa/core/", idsc := "https://w3id.org/idsa/code/" }
    atType := "ids:ContractAgreement"
    atId := "https://w3id.org/idsa/autogen/contract/" ++ dataset.uuid
    profile := "http://example.com/ids-profile"
    provider := "http://example.com/party/data-provider"
    consumer := "http://example.com/party/data-consumer"
    permission := [{ target := { atId := "http://example.com/ids/target/" ++ dataset.uuid }
                     action := [{ atId := "idsc:USE" }]
                     constraint := none }] }

/-- The IDS connector-equality constraint attached by the
`restrict_connector` branch of `generateIDSPolicy`. -/
def idsConnectorConstraint (c : String) : IDSConstraint :=
  { atType := "ids:Constraint"
    leftOperand := { atId := "idsc:CONNECTOR" }
    operator := { atId := "idsc:EQUALS" }
    rightOperand := [{ atValue := c, atType := "xsd:string" }] }

/-- The IDS lower time-bound constraint attached by the `time_limit`
branch of `generateIDSPolicy`. -/
def idsAfterConstraint (s : String) : IDSConstraint :=
  { atType := "ids:Constraint"
    leftOperand := { atId := "idsc:POLICY_EVALUATION_TIME" }
    operator := { atId := "idsc:AFTER" }
    rightOperand := [{ atValue := s, atType := "xsd:dateTimeStamp" }] }

/-- The IDS upper time-bound constraint attached by the `time_limit`
branch of `generateIDSPolicy`. -/
def idsBeforeConstraint (e : String) : IDSConstraint :=
  { atType := "ids:Constraint"
    leftOperand := { atId := "idsc:POLICY_EVALUATION_TIME" }
    operator := { atId := "idsc:BEFORE" }
    rightOperand := [{ atValue := e, atType := "xsd:dateTimeStamp" }] }

/-- The IDS usage-count constraint attached by the `usage_count` branch
of `generateIDSPolicy`; the source stringifies the number
(`config.maxUsageCount.toString()`). -/
def idsCountConstraint (n : Int) : IDSConstraint :=
  { atType := "ids:Constraint"
    leftOperand := { atId := "idsc:COUNT" }
    operator := { atId := "idsc:LTEQ" }
    rightOperand := [{ atValue := toString n, atType := "xsd:double" }] }

/-- Replace the permission list of an IDS document by its base singleton
permission carrying the given constraint list; this models the in-place
`permission["ids:constraint"] = [...]` assignment of the source. -/
def idsWithConstraint (dataset : Dataset) (cs : List IDSConstraint) : IDSPolicy :=
  { baseIDSPolicy dataset with permission :=
      [{ target := { atId := "http://example.com/ids/target/" ++ dataset.uuid }
         action := [{ atId := "idsc:USE" }]
         constraint := some cs }] }

/-- The IDS compiler: the `switch (config.type)` of `generateIDSPolicy`,
each guarded branch mutating the base document. -/
def generateIDSPolicy (dataset : Dataset) (config : PolicyConfig) : IDSPolicy :=
  let basePolicy := baseIDSPolicy dataset
  match config.type with
  | PolicyType.restrict_consumer =>
      match config.consumers with
      | some (c :: _) => { basePolicy with consumer := c }
      | _ => basePolicy
  | PolicyType.restrict_connector =>
      match config.connectors with
      | some (c :: _) => idsWithConstraint dataset [idsConnectorConstraint c]
      | _ => basePolicy
  | PolicyType.time_limit =>
      match config.startTime, config.endTime with
      | some s, some e =>
          if s.isEmpty || e.isEmpty then basePolicy
          else idsWithConstraint dataset [idsAfterConstraint s, idsBeforeConstraint e]
      | _, _ => basePolicy
  | PolicyType.usage_count =>
      match config.maxUsageCount with
      | some n =>
          if n = 0 then basePolicy
          else idsWithConstraint dataset [idsCountConstraint n]
      | none => basePolicy

/-- The `rightOperand` of an ODRL constraint: a plain JSON string for the
connector variant, a JSON number for the usage-count variant, and a
`{"@value", "@type"}` object for the time-window variant. -/
inductive ODRLOperand where
  | str (s : String)
  | num (n : Int)
  | typed (atValue : String) (atType : String)
deriving DecidableEq, Repr

/-- One element of an ODRL `constraint` list. -/
structure ODRLConstraint where
  leftOperand : String
  operator : String
  rightOperand : ODRLOperand
deriving DecidableEq, Repr

/-- One element of the ODRL `permission` list. -/
structure ODRLPermission where
  target : String
  assigner : String
  assignee : String
  action : String
  constraint : Option (List ODRLConstraint)
deriving DecidableEq, Repr

/-- The `@context` of the ODRL document: the fixed vocabulary URI plus
the prefix map. -/
structure ODRLContext where
  odrlJsonld : String
  dc : String
  ids : String
  idsc : String
deriving DecidableEq, Repr

/-- The ODRL `Agreement` document. -/
structure ODRLPolicy where
  atContext : ODRLContext
  atType : String
  uid : String
  profile : String
  dcCreator : String
  dcDescription : String
  dcIssued : String
  permission : List ODRLPermission
deriving DecidableEq, Repr

/-- The base ODRL document (`basePolicy` local of `generateODRLPolicy`);
`now` stands for `new Date().toISOString()` sampled at compile time. -/
def baseODRLPolicy (dataset : Dataset) (now : String) : ODRLPolicy :=
  { atContext := { odrlJsonld := "http://www.w3.org/ns/odrl.jsonld"
                   dc := "http://purl.org/dc/terms/"
                   ids := "https://w3id.org/idsa/core/"
                   idsc := "https://w3id.org/idsa/code/" }
    atType := "Agreement"
    uid := "http://example.com/policy/" ++ dataset.uuid
    profile := "http://www.w3.org/ns/odrl/2/core"
    dcCreator := "Data Provider"
    dcDescription := "Policy for dataset: " ++ dataset.name
    dcIssued := now
    permission := [{ target := "http://example.com/ids/data/" ++ dataset.uuid
                     assigner := "http://example.com/ids/party/data-provider"
                     assignee := "http://example.com/ids/party/data-consumer"
                     action := "use"
                     constraint := none }] }

/-- The ODRL connector-equality constraint attached by the
`restrict_connector` branch of `generateODRLPolicy`. -/
def odrlConnectorConstraint (c : String) : ODRLConstraint :=
  { leftOperand := "connector", operator := "eq", rightOperand := ODRLOperand.str c }

/-- The ODRL lower time-bound constraint attached by the `time_limit`
branch of `generateODRLPolicy`. -/
def odrlGteqConstraint (s : String) : ODRLConstraint :=
  { leftOperand := "dateTime", operator := "gteq"
    rightOperand := ODRLOperand.typed s "xsd:dateTime" }

/-- The ODRL upper time-bound constraint attached by the `time_limit`
branch of `generateODRLPolicy`. -/
def odrlLteqConstraint (e : String) : ODRLConstraint :=
  { leftOperand := "dateTime", operator := "lteq"
    rightOperand := ODRLOperand.typed e "xsd:dateTime" }

/-- The ODRL usage-count constraint attached by the `usage_count` branch
of `generateODRLPolicy`; the right operand is the number itself. -/
def odrlCountConstraint (n : Int) : ODRLConstraint :=
  { leftOperand := "count", operator := "lteq", rightOperand := ODRLOperand.num n }

/-- The base singleton permission of the ODRL document. -/
def baseODRLPermission (dataset : Dataset) : ODRLPermission :=
  { target := "http://example.com/ids/data/" ++ dataset.uuid
    assigner := "http://example.com/ids/party/data-provider"
    assignee := "http://example.com/ids/party/data-consumer"
    action := "use"
    constraint := none }

/-- The ODRL compiler: the `switch (config.type)` of `generateODRLPolicy`. -/
def generateODRLPolicy (dataset : Dataset) (config : PolicyConfig) (now : String) : ODRLPolicy :=
  let basePolicy := baseODRLPolicy dataset now
  let basePerm := baseODRLPermission dataset
  match config.type with
  | PolicyType.restrict_consumer =>
      match config.consumers with
      | some (c :: _) =>
          { basePolicy with permission := [{ basePerm with assignee := c }] }
      | _ => basePolicy
  | PolicyType.restrict_connector =>
      match config.connectors with
      | some (c :: _) =>
          { basePolicy with permission :=
              [{ basePerm with constraint := some [odrlConnectorConstraint c] }] }
      | _ => basePolicy
  | PolicyType.time_limit =>
      match config.startTime, config.endTime with
      | some s, some e =>
          if s.isEmpty || e.isEmpty then basePolicy
          else
            { basePolicy with permission :=
                [{ basePerm with constraint := some [odrlGteqConstraint s, odrlLteqConstraint e] }] }
      | _, _ => basePolicy
  | PolicyType.usage_count =>
      match config.maxUsageCount with
      | some n =>
          if n = 0 then basePolicy
          else
            { basePolicy with permission :=
                [{ basePerm with constraint := some [odrlCountConstraint n] }] }
      | none => basePolicy

/-- The hex digit a JavaScript single-digit `Number.prototype.toString(16)`
produces: `0..9` then lowercase `a..f`. -/
def hexChar (n : Nat) : Char :=
  if n < 10 then Char.ofNat (48 + n) else Char.ofNat (87 + n)

/-- The template string of `generateUUID`. -/
def uuidTemplate : String := "xxxxxxxx-xxxx-4xxx-yxxx-xxxxxxxxxxxx"

/-- The `replace(/[xy]/g, ...)` callback of `generateUUID`, run over the
template characters; `rand k` is the value of `Math.random() * 16 | 0`
at the k-th match; an `x` becomes `r.toString(16)`, a `y` becomes
`(r & 0x3 | 0x8).toString(16)`, other characters pass through and
consume no draw. -/
def replaceXY (rand : Nat → Fin 16) : List Char → Nat → List Char
  | [], _ => []
  | c :: cs, k =>
      if c = 'x' then hexChar (rand k) :: replaceXY rand cs (k + 1)
      else if c = 'y' then hexChar ((rand k).val % 4 + 8) :: replaceXY rand cs (k + 1)
      else c :: replaceXY rand cs k

/-- Source: `generateUUID`, with the random draw stream explicit. -/
def generateUUID (rand : Nat → Fin 16) : String :=
  String.mk (replaceXY rand uuidTemplate.toList 0)

/-- Erase the one impure field of an ODRL document, for comparing two
compilations up to the `dc:issued` timestamp. -/
def stripIssued (p : ODRLPolicy) : ODRLPolicy :=
  { p with dcIssued := "" }

/-- All string leaves of an IDS node reference. -/
def stringsOfIDSRef (r : IDSRef) : List String := [r.atId]

/-- All string leaves of an IDS typed literal. -/
def stringsOfIDSTypedValue (v : IDSTypedValue) : List String := [v.atValue, v.atType]

/-- All string leaves of an IDS constraint. -/
def stringsOfIDSConstraint (c : IDSConstraint) : List String :=
  c.atType :: (stringsOfIDSRef c.leftOperand ++ stringsOfIDSRef c.operator
    ++ c.rightOperand.flatMap stringsOfIDSTypedValue)

/-- All string leaves of an IDS permission. -/
def stringsOfIDSPermission (p : IDSPermission) : List String :=
  stringsOfIDSRef p.target ++ p.action.flatMap stringsOfIDSRef ++
    (match p.constraint with
     | none => []
     | some cs => cs.flatMap stringsOfIDSConstraint)

/-- Every string occurring anywhere in an IDS document (keys are fixed by
the structure; these are all the values). -/
def stringsOfIDSPolicy (p : IDSPolicy) : List String :=
  p.atContext.ids :: p.atContext.idsc :: p.atType :: p.atId :: p.profile ::
    p.provider :: p.consumer :: p.permission.flatMap stringsOfIDSPermission

/-- All string leaves of an ODRL right operand; a JSON number has none. -/
def stringsOfODRLOperand : ODRLOperand → List String
  | ODRLOperand.str s => [s]
  | ODRLOperand.num _ => []
  | ODRLOperand.typed v ty => [v, ty]

/-- All string leaves of an ODRL constraint. -/
def stringsOfODRLConstraint (c : ODRLConstraint) : List String :=
  c.leftOperand :: c.operator :: stringsOfODRLOperand c.rightOperand

/-- All string leaves of an ODRL permission. -/
def stringsOfODRLPermission (p : ODRLPermission) : List String :=
  p.target :: p.assigner :: p.assignee :: p.action ::
    (match p.constraint with
     | none => []
     | some cs => cs.flatMap stringsOfODRLConstraint)

/-- Every string occurring anywhere in an ODRL document. -/
def stringsOfODRLPolicy (p : ODRLPolicy) : List String :=
  p.atContext.odrlJsonld :: p.atContext.dc :: p.atContext.ids :: p.atContext.idsc ::
    p.atType :: p.uid :: p.profile :: p.dcCreator :: p.dcDescription :: p.dcIssued ::
    p.permission.flatMap stringsOfODRLPermission

/-- The claim-C1 bundle: on a `restrict_consumer` config whose consumer
list starts with `c`, the IDS document-level consumer field and the ODRL
assignee are exactly `c` (the singleton map captures that the permission
list has one element), both outputs are invariant under replacing
everything after the first consumer, and every string in either output
is either `c` or a string of the corresponding base document — so no
consumer identifier after the first is ever encoded. -/
def FirstConsumerOnly (d : Dataset) (cfg : PolicyConfig) (c : String) (t : String) : Prop :=
  (generateIDSPolicy d cfg).consumer = c ∧
  (generateODRLPolicy d cfg t).permission.map (fun p => p.assignee) = [c] ∧
  (∀ rest2, generateIDSPolicy d { cfg with consumers := some (c :: rest2) }
      = generateIDSPolicy d cfg) ∧
  (∀ rest2, generateODRLPolicy d { cfg with consumers := some (c :: rest2) } t
      = generateODRLPolicy d cfg t) ∧
  (∀ x, x ∈ stringsOfIDSPolicy (generateIDSPolicy d cfg)
      → x = c ∨ x ∈ stringsOfIDSPolicy (baseIDSPolicy d)) ∧
  (∀ x, x ∈ stringsOfODRLPolicy (generateODRLPolicy d cfg t)
      → x = c ∨ x ∈ stringsOfODRLPolicy (baseODRLPolicy d t))

/-- The claim-C4 emptiness condition on the parameters relevant to the
active variant: an empty or absent consumer list, an empty or absent
connector list, an empty or absent time string, or an absent usage
count. -/
def hasEmptyParams (c : PolicyConfig) : Bool :=
  match c.type with
  | PolicyType.restrict_consumer => !truthyNonemptyList c.consumers
  | PolicyType.restrict_connector => !truthyNonemptyList c.connectors
  | PolicyType.time_limit => !(truthyStr c.startTime && truthyStr c.endTime)
  | PolicyType.usage_count => c.maxUsageCount == none

/-- Two configs agree on the active tag and on the parameters relevant to
that tag; all other fields may differ arbitrarily. -/
def relevantParamsEq (c1 c2 : PolicyConfig) : Prop :=
  c1.type = c2.type ∧
  match c1.type with
  | PolicyType.restrict_consumer => c1.consumers = c2.consumers
  | PolicyType.restrict_connector => c1.connectors = c2.connectors
  | PolicyType.time_limit => c1.startTime = c2.startTime ∧ c1.endTime = c2.endTime
  | PolicyType.usage_count => c1.maxUsageCount = c2.maxUsageCount

/-- Hexadecimal digit test over the characters `generateUUID` can emit. -/
def isHexDigitChar (c : Char) : Bool :=
  (('0' ≤ c) && (c ≤ '9')) || (('a' ≤ c) && (c ≤ 'f'))

/-- Hyphen test. -/
def isDashChar (c : Char) : Bool := c = '-'

/-- Version nibble test: the literal `'4'`. -/
def isFourChar (c : Char) : Bool := c = '4'

/-- Variant nibble test: one of `'8'`, `'9'`, `'a'`, `'b'`. -/
def isVariantChar (c : Char) : Bool :=
  c = '8' || c = '9' || c = 'a' || c = 'b'

/-- The canonical 8-4-4-4-12 shape with fixed version nibble and
constrained variant nibble, as one predicate per character position. -/
def uuidMask : List (Char → Bool) :=
  List.replicate 8 isHexDigitChar ++ [isDashChar] ++
  List.replicate 4 isHexDigitChar ++ [isDashChar, isFourChar] ++
  List.replicate 3 isHexDigitChar ++ [isDashChar, isVariantChar] ++
  List.replicate 3 isHexDigitChar ++ [isDashChar] ++
  List.replicate 12 isHexDigitChar

/-- A character list matches a mask when it has the mask's length and
each character satisfies the predicate at its position. -/
def matchesMask : List (Char → Bool) → List Char → Bool
  | [], [] => true
  | p :: ps, c :: cs => p c && matchesMask ps cs
  | _, _ => false

/-- Both compilers return one of three shapes: the base document, the base
document with an overwritten consumer field, or the base document whose
singleton permission carries a constraint list. -/
theorem generateIDSPolicy_shape (d : Dataset) (c : PolicyConfig) :
    generateIDSPolicy d c = baseIDSPolicy d ∨
    (∃ x, generateIDSPolicy d c = { baseIDSPolicy d with consumer := x }) ∨
    (∃ cs, generateIDSPolicy d c = idsWithConstraint d cs) := by
  obtain ⟨ty, cons, conn, st, et, mx⟩ := c
  cases ty
  case restrict_consumer =>
    rcases cons with _ | ⟨_ | ⟨c0, cs⟩⟩
    · exact Or.inl rfl
    · exact Or.inl rfl
    · exact Or.inr (Or.inl ⟨c0, rfl⟩)
  case restrict_connector =>
    rcases conn with _ | ⟨_ | ⟨c0, cs⟩⟩
    · exact Or.inl rfl
    · exact Or.inl rfl
    · exact Or.inr (Or.inr ⟨_, rfl⟩)
  case time_limit =>
    rcases st with _ | ⟨s⟩ <;> rcases et with _ | ⟨e⟩
    · exact Or.inl rfl
    · exact Or.inl rfl
    · exact Or.inl rfl
    · simp only [generateIDSPolicy]
      split
      · exact Or.inl rfl
      · exact Or.inr (Or.inr ⟨_, rfl⟩)
  case usage_count =>
    rcases mx with _ | ⟨n⟩
    · exact Or.inl rfl
    · simp only [generateIDSPolicy]
      split
      · exact Or.inl rfl
      · exact Or.inr (Or.inr ⟨_, rfl⟩)

/-- Shape analysis for the ODRL compiler, mirroring the IDS one: the base
document, an overwritten assignee, or an attached constraint list. -/
theorem generateODRLPolicy_shape (d : Dataset) (c : PolicyConfig) (t : String) :
    generateODRLPolicy d c t = baseODRLPolicy d t ∨
    (∃ x, generateODRLPolicy d c t =
      { baseODRLPolicy d t with permission := [{ baseODRLPermission d with assignee := x }] }) ∨
    (∃ cs, generateODRLPolicy d c t =
      { baseODRLPolicy d t with permission :=
          [{ baseODRLPermission d with constraint := some cs }] }) := by
  obtain ⟨ty, cons, conn, st, et, mx⟩ := c
  cases ty
  case restrict_consumer =>
    rcases cons with _ | ⟨_ | ⟨c0, cs⟩⟩
    · exact Or.inl rfl
    · exact Or.inl rfl
    · exact Or.inr (Or.inl ⟨c0, rfl⟩)
  case restrict_connector =>
    rcases conn with _ | ⟨_ | ⟨c0, cs⟩⟩
    · exact Or.inl rfl
    · exact Or.inl rfl
    · exact Or.inr (Or.inr ⟨_, rfl⟩)
  case time_limit =>
    rcases st with _ | ⟨s⟩ <;> rcases et with _ | ⟨e⟩
    · exact Or.inl rfl
    · exact Or.inl rfl
    · exact Or.inl rfl
    · simp only [generateODRLPolicy]
      split
      · exact Or.inl rfl
      · exact Or.inr (Or.inr ⟨_, rfl⟩)
  case usage_count =>
    rcases mx with _ | ⟨n⟩
    · exact Or.inl rfl
    · simp only [generateODRLPolicy]
      split
      · exact Or.inl rfl
      · exact Or.inr (Or.inr ⟨_, rfl⟩)

/-- Every draw value renders as a hexadecimal digit. -/
theorem hexChar_hex : ∀ r : Fin 16, isHexDigitChar (hexChar r.val) = true := by decide

/-- The `(r & 0x3 | 0x8)` transform of any draw renders as one of
`8`, `9`, `a`, `b`. -/
theorem hexChar_variant : ∀ r : Fin 16, isVariantChar (hexChar (r.val % 4 + 8)) = true := by
  decide

/-- Template replacement preserves length: each character of the template
produces exactly one output character. -/
theorem replaceXY_length (rand : Nat → Fin 16) (cs : List Char) (k : Nat) :
    (replaceXY rand cs k).length = cs.length := by
  induction cs generalizing k with
  | nil => rfl
  | cons c cs ih =>
    unfold replaceXY
    split
    · simp [ih]
    · split <;> simp [ih]

/-- Claim C1: for every dataset and every `restrict_consumer` config with
a non-empty consumer list `c :: rest`, `generateIDSPolicy` overwrites the
document-level consumer field with exactly `c` (a plain string field) and
`generateODRLPolicy` sets the single permission's assignee to exactly `c`;
both outputs are unchanged under replacing everything after the first
consumer (so the tail is never encoded, for any list length), and every
string in either output is either `c` or already a string of the
corresponding base document. -/
theorem claim1_first_consumer (d : Dataset) (cfg : PolicyConfig) (c : String)
    (rest : List String) (t : String)
    (hty : cfg.type = PolicyType.restrict_consumer)
    (hc : cfg.consumers = some (c :: rest)) :
    FirstConsumerOnly d cfg c t := by
  obtain ⟨ty, cons, conn, st, et, mx⟩ := cfg
  dsimp only at hty hc
  subst hty hc
  refine ⟨rfl, rfl, fun rest2 => rfl, fun rest2 => rfl, ?_, ?_⟩
  · intro x hx
    simp [generateIDSPolicy, stringsOfIDSPolicy, stringsOfIDSPermission,
      stringsOfIDSRef, baseIDSPolicy] at hx ⊢
    tauto
  · intro x hx
    simp [generateODRLPolicy, stringsOfODRLPolicy, stringsOfODRLPermission,
      baseODRLPolicy, baseODRLPermission] at hx ⊢
    tauto

/-- Witness for claim C1 at a concrete dataset and the two-consumer list
`["c1", "c2"]`. -/
theorem claim1_first_consumer_witness :
    FirstConsumerOnly { id := 1, name := "N", description := "D", uuid := "u-1" }
      { type := PolicyType.restrict_consumer, consumers := some ["c1", "c2"],
        connectors := none, startTime := none, endTime := none, maxUsageCount := some 1 }
      "c1" "2024-01-01T00:00:00.000Z" :=
  claim1_first_consumer _ _ "c1" ["c2"] _ rfl rfl

/-- Claim C2: for every dataset and every `time_limit` config with present
non-empty start and end strings (no ordering check: `start > end` passes
through unchanged, since only non-emptiness is assumed), the IDS output
carries a two-element constraint list in the order AFTER then BEFORE on
`idsc:POLICY_EVALUATION_TIME` with datatype `xsd:dateTimeStamp` carrying
the strings verbatim, and the ODRL output carries gteq then lteq on
`dateTime` with datatype `xsd:dateTime` carrying the strings verbatim. -/
theorem claim2_time_window (d : Dataset) (c : PolicyConfig) (t s e : String)
    (hty : c.type = PolicyType.time_limit)
    (hs : c.startTime = some s) (he : c.endTime = some e)
    (hs2 : s.isEmpty = false) (he2 : e.isEmpty = false) :
    (generateIDSPolicy d c).permission.map (fun p => p.constraint) =
      [some [⟨"ids:Constraint", ⟨"idsc:POLICY_EVALUATION_TIME"⟩, ⟨"idsc:AFTER"⟩,
               [⟨s, "xsd:dateTimeStamp"⟩]⟩,
             ⟨"ids:Constraint", ⟨"idsc:POLICY_EVALUATION_TIME"⟩, ⟨"idsc:BEFORE"⟩,
               [⟨e, "xsd:dateTimeStamp"⟩]⟩]] ∧
    (generateODRLPolicy d c t).permission.map (fun p => p.constraint) =
      [some [⟨"dateTime", "gteq", ODRLOperand.typed s "xsd:dateTime"⟩,
             ⟨"dateTime", "lteq", ODRLOperand.typed e "xsd:dateTime"⟩]] := by
  obtain ⟨ty, cons, conn, st, et, mx⟩ := c
  dsimp only at hty hs he
  subst hty hs he
  constructor <;>
    simp [generateIDSPolicy, generateODRLPolicy, hs2, he2, idsWithConstraint,
      idsAfterConstraint, idsBeforeConstraint, odrlGteqConstraint, odrlLteqConstraint,
      baseODRLPermission, baseODRLPolicy]

/-- Witness for claim C2 at the spec's sample window, whose bounds happen
to be ordered; the theorem itself never compares them. -/
theorem claim2_time_window_witness :
    (generateIDSPolicy { id := 1, name := "N", description := "D", uuid := "u-1" }
        { type := PolicyType.time_limit, consumers := none, connectors := none,
          startTime := some "2024-01-01T00:00", endTime := some "2024-06-01T00:00",
          maxUsageCount := some 1 }).permission.map (fun p => p.constraint) =
      [some [⟨"ids:Constraint", ⟨"idsc:POLICY_EVALUATION_TIME"⟩, ⟨"idsc:AFTER"⟩,
               [⟨"2024-01-01T00:00", "xsd:dateTimeStamp"⟩]⟩,
             ⟨"ids:Constraint", ⟨"idsc:POLICY_EVALUATION_TIME"⟩, ⟨"idsc:BEFORE"⟩,
               [⟨"2024-06-01T00:00", "xsd:dateTimeStamp"⟩]⟩]] ∧
    (generateODRLPolicy { id := 1, name := "N", description := "D", uuid := "u-1" }
        { type := PolicyType.time_limit, consumers := none, connectors := none,
          startTime := some "2024-01-01T00:00", endTime := some "2024-06-01T00:00",
          maxUsageCount := some 1 } "T").permission.map (fun p => p.constraint) =
      [some [⟨"dateTime", "gteq", ODRLOperand.typed "2024-01-01T00:00" "xsd:dateTime"⟩,
             ⟨"dateTime", "lteq", ODRLOperand.typed "2024-06-01T00:00" "xsd:dateTime"⟩]] :=
  claim2_time_window _ _ "T" "2024-01-01T00:00" "2024-06-01T00:00" rfl rfl rfl rfl rfl

/-- Claim C3: for every dataset and every `usage_count` config with a
positive count `n`, the IDS output carries a single constraint on
`idsc:COUNT` with operator `idsc:LTEQ` whose right operand is the decimal
string rendering of `n` at datatype `xsd:double`, and the ODRL output
carries a single constraint on `count` with operator `lteq` whose right
operand is the number `n` itself (`ODRLOperand.num`, not a string). -/
theorem claim3_usage_count (d : Dataset) (c : PolicyConfig) (t : String) (n : Int)
    (hty : c.type = PolicyType.usage_count)
    (hmx : c.maxUsageCount = some n) (hn : 0 < n) :
    (generateIDSPolicy d c).permission.map (fun p => p.constraint) =
      [some [⟨"ids:Constraint", ⟨"idsc:COUNT"⟩, ⟨"idsc:LTEQ"⟩,
               [⟨toString n, "xsd:double"⟩]⟩]] ∧
    (generateODRLPolicy d c t).permission.map (fun p => p.constraint) =
      [some [⟨"count", "lteq", ODRLOperand.num n⟩]] := by
  obtain ⟨ty, cons, conn, st, et, mx⟩ := c
  dsimp only at hty hmx
  subst hty hmx
  have hne : ¬ n = 0 := by omega
  constructor <;>
    simp [generateIDSPolicy, generateODRLPolicy, hne, idsWithConstraint,
      idsCountConstraint, odrlCountConstraint, baseODRLPermission, baseODRLPolicy]

/-- Witness for claim C3 at count 5: the IDS right operand is the string
`"5"`, the ODRL right operand the number 5. -/
theorem claim3_usage_count_witness :
    (generateIDSPolicy { id := 1, name := "N", description := "D", uuid := "u-1" }
        { type := PolicyType.usage_count, consumers := none, connectors := none,
          startTime := none, endTime := none,
          maxUsageCount := some 5 }).permission.map (fun p => p.constraint) =
      [some [⟨"ids:Constraint", ⟨"idsc:COUNT"⟩, ⟨"idsc:LTEQ"⟩, [⟨"5", "xsd:double"⟩]⟩]] ∧
    (generateODRLPolicy { id := 1, name := "N", description := "D", uuid := "u-1" }
        { type := PolicyType.usage_count, consumers := none, connectors := none,
          startTime := none, endTime := none,
          maxUsageCount := some 5 } "T").permission.map (fun p => p.constraint) =
      [some [⟨"count", "lteq", ODRLOperand.num 5⟩]] := by
  have h := claim3_usage_count
    { id := 1, name := "N", description := "D", uuid := "u-1" }
    { type := PolicyType.usage_count, consumers := none, connectors := none,
      startTime := none, endTime := none, maxUsageCount := some 5 }
    "T" 5 rfl rfl (by decide)
  simpa using h

/-- Claim C4: for every dataset and every config whose variant-relevant
parameters are empty or absent, both compilers return exactly the
unconstrained base document: no constraint is attached, the IDS consumer
and the ODRL assignee keep their placeholder URIs. Both compilers are
total Lean functions, so neither can fail on any input. -/
theorem claim4_empty_params (d : Dataset) (c : PolicyConfig) (t : String)
    (h : hasEmptyParams c = true) :
    generateIDSPolicy d c = baseIDSPolicy d ∧
    generateODRLPolicy d c t = baseODRLPolicy d t ∧
    (generateIDSPolicy d c).consumer = "http://example.com/party/data-consumer" ∧
    (generateIDSPolicy d c).permission.map (fun p => p.constraint) = [none] ∧
    (generateODRLPolicy d c t).permission.map (fun p => (p.assignee, p.constraint)) =
      [("http://example.com/ids/party/data-consumer", none)] := by
  have hmain : generateIDSPolicy d c = baseIDSPolicy d ∧
      generateODRLPolicy d c t = baseODRLPolicy d t := by
    obtain ⟨ty, cons, conn, st, et, mx⟩ := c
    cases ty
    case restrict_consumer =>
      rcases cons with _ | ⟨_ | ⟨c0, cs⟩⟩
      · exact ⟨rfl, rfl⟩
      · exact ⟨rfl, rfl⟩
      · simp [hasEmptyParams, truthyNonemptyList] at h
    case restrict_connector =>
      rcases conn with _ | ⟨_ | ⟨c0, cs⟩⟩
      · exact ⟨rfl, rfl⟩
      · exact ⟨rfl, rfl⟩
      · simp [hasEmptyParams, truthyNonemptyList] at h
    case time_limit =>
      rcases st with _ | ⟨s⟩ <;> rcases et with _ | ⟨e⟩
      · exact ⟨rfl, rfl⟩
      · exact ⟨rfl, rfl⟩
      · exact ⟨rfl, rfl⟩
      · simp [hasEmptyParams, truthyStr] at h
        rcases h with h | h <;>
          constructor <;> simp [generateIDSPolicy, generateODRLPolicy, h]
    case usage_count =>
      rcases mx with _ | ⟨n⟩
      · exact ⟨rfl, rfl⟩
      · simp [hasEmptyParams] at h
  refine ⟨hmain.1, hmain.2, ?_, ?_, ?_⟩ <;>
    simp [hmain.1, hmain.2, baseIDSPolicy, baseODRLPolicy]

/-- Witness for claim C4 at an empty consumer selection. -/
theorem claim4_empty_params_witness :
    generateIDSPolicy { id := 1, name := "N", description := "D", uuid := "u-1" }
        { type := PolicyType.restrict_consumer, consumers := some [], connectors := none,
          startTime := none, endTime := none, maxUsageCount := some 1 } =
      baseIDSPolicy { id := 1, name := "N", description := "D", uuid := "u-1" } ∧
    generateODRLPolicy { id := 1, name := "N", description := "D", uuid := "u-1" }
        { type := PolicyType.restrict_consumer, consumers := some [], connectors := none,
          startTime := none, endTime := none, maxUsageCount := some 1 } "T" =
      baseODRLPolicy { id := 1, name := "N", description := "D", uuid := "u-1" } "T" ∧
    (generateIDSPolicy { id := 1, name := "N", description := "D", uuid := "u-1" }
        { type := PolicyType.restrict_consumer, consumers := some [], connectors := none,
          startTime := none, endTime := none, maxUsageCount := some 1 }).consumer =
      "http://example.com/party/data-consumer" ∧
    (generateIDSPolicy { id := 1, name := "N", description := "D", uuid := "u-1" }
        { type := PolicyType.restrict_consumer, consumers := some [], connectors := none,
          startTime := none, endTime := none, maxUsageCount := some 1 }).permission.map
        (fun p => p.constraint) = [none] ∧
    (generateODRLPolicy { id := 1, name := "N", description := "D", uuid := "u-1" }
        { type := PolicyType.restrict_consumer, consumers := some [], connectors := none,
          startTime := none, endTime := none, maxUsageCount := some 1 } "T").permission.map
        (fun p => (p.assignee, p.constraint)) =
      [("http://example.com/ids/party/data-consumer", none)] :=
  claim4_empty_params _ _ "T" rfl

/-- Claim C5: the IDS compiler is a pure function of the pair (its
embedding takes no clock), and two ODRL compilations of the same pair at
clock readings `t1`, `t2` agree on every field once `dc:issued` is
erased; `dc:issued` itself is exactly the clock reading. -/
theorem claim5_determinism (d : Dataset) (c : PolicyConfig) (t1 t2 : String) :
    generateIDSPolicy d c = generateIDSPolicy d c ∧
    (generateODRLPolicy d c t1).dcIssued = t1 ∧
    stripIssued (generateODRLPolicy d c t1) = stripIssued (generateODRLPolicy d c t2) := by
  refine ⟨rfl, ?_, ?_⟩
  · rcases generateODRLPolicy_shape d c t1 with h | ⟨x, h⟩ | ⟨cs, h⟩ <;> rw [h] <;> rfl
  · obtain ⟨ty, cons, conn, st, et, mx⟩ := c
    cases ty
    case restrict_consumer =>
      rcases cons with _ | ⟨_ | ⟨c0, cs⟩⟩ <;> rfl
    case restrict_connector =>
      rcases conn with _ | ⟨_ | ⟨c0, cs⟩⟩ <;> rfl
    case time_limit =>
      rcases st with _ | ⟨s⟩ <;> rcases et with _ | ⟨e⟩
      · rfl
      · rfl
      · rfl
      · cases hse : (s.isEmpty || e.isEmpty) <;>
          simp [generateODRLPolicy, hse, stripIssued, baseODRLPolicy, baseODRLPermission]
    case usage_count =>
      rcases mx with _ | ⟨n⟩
      · rfl
      · by_cases hn : n = 0 <;>
          simp [generateODRLPolicy, hn, stripIssued, baseODRLPolicy, baseODRLPermission]

/-- Claim C6: each compiler branches solely on the active variant tag and
the parameters relevant to it: two configs related by `relevantParamsEq`
(same tag, equal relevant parameters, everything else arbitrary) compile
to identical IDS documents and to ODRL documents identical except for
`dc:issued`. -/
theorem claim6_noninterference (d : Dataset) (c1 c2 : PolicyConfig) (t1 t2 : String)
    (h : relevantParamsEq c1 c2) :
    generateIDSPolicy d c1 = generateIDSPolicy d c2 ∧
    stripIssued (generateODRLPolicy d c1 t1) = stripIssued (generateODRLPolicy d c2 t2) := by
  obtain ⟨ty1, cons1, conn1, st1, et1, mx1⟩ := c1
  obtain ⟨ty2, cons2, conn2, st2, et2, mx2⟩ := c2
  obtain ⟨hty, hp⟩ := h
  dsimp only at hty hp
  subst hty
  cases ty1
  case restrict_consumer =>
    dsimp only [relevantParamsEq] at hp
    subst hp
    refine ⟨rfl, ?_⟩
    rcases cons1 with _ | ⟨_ | ⟨c0, cs⟩⟩ <;> rfl
  case restrict_connector =>
    dsimp only [relevantParamsEq] at hp
    subst hp
    refine ⟨rfl, ?_⟩
    rcases conn1 with _ | ⟨_ | ⟨c0, cs⟩⟩ <;> rfl
  case time_limit =>
    dsimp only [relevantParamsEq] at hp
    obtain ⟨hst, het⟩ := hp
    subst hst het
    refine ⟨rfl, ?_⟩
    rcases st1 with _ | ⟨s⟩ <;> rcases et1 with _ | ⟨e⟩
    · rfl
    · rfl
    · rfl
    · cases hse : (s.isEmpty || e.isEmpty) <;>
        simp [generateODRLPolicy, hse, stripIssued, baseODRLPolicy, baseODRLPermission]
  case usage_count =>
    dsimp only [relevantParamsEq] at hp
    subst hp
    refine ⟨rfl, ?_⟩
    rcases mx1 with _ | ⟨n⟩
    · rfl
    · by_cases hn : n = 0 <;>
        simp [generateODRLPolicy, hn, stripIssued, baseODRLPolicy, baseODRLPermission]

/-- Witness for claim C6: two `usage_count` configs with equal counts but
different consumer, connector and time fields, compiled at different
clock readings. -/
theorem claim6_noninterference_witness :
    generateIDSPolicy { id := 1, name := "N", description := "D", uuid := "u-1" }
        { type := PolicyType.usage_count, consumers := some ["a"], connectors := none,
          startTime := some "s", endTime := none, maxUsageCount := some 2 } =
      generateIDSPolicy { id := 1, name := "N", description := "D", uuid := "u-1" }
        { type := PolicyType.usage_count, consumers := none, connectors := some ["b"],
          startTime := none, endTime := some "e", maxUsageCount := some 2 } ∧
    stripIssued (generateODRLPolicy { id := 1, name := "N", description := "D", uuid := "u-1" }
        { type := PolicyType.usage_count, consumers := some ["a"], connectors := none,
          startTime := some "s", endTime := none, maxUsageCount := some 2 } "T1") =
      stripIssued (generateODRLPolicy { id := 1, name := "N", description := "D", uuid := "u-1" }
        { type := PolicyType.usage_count, consumers := none, connectors := some ["b"],
          startTime := none, endTime := some "e", maxUsageCount := some 2 } "T2") :=
  claim6_noninterference _ _ _ "T1" "T2" ⟨rfl, rfl⟩

/-- Claim C7: for every stream of random draws, `generateUUID` returns a
36-character string matching the 8-4-4-4-12 hyphenated hexadecimal
layout, with version nibble `4` at position 14 and variant nibble in
`{8, 9, a, b}` at position 19; the function is total and reads nothing
but its draw stream. -/
theorem claim7_uuid_shape (rand : Nat → Fin 16) :
    (generateUUID rand).length = 36 ∧
    matchesMask uuidMask (generateUUID rand).toList = true := by
  constructor
  · show (replaceXY rand uuidTemplate.toList 0).length = 36
    rw [replaceXY_length]
    decide
  · show matchesMask uuidMask (replaceXY rand uuidTemplate.toList 0) = true
    simp only [uuidTemplate, uuidMask, List.replicate]
    simp [replaceXY, matchesMask, hexChar_hex, hexChar_variant, String.toList,
      isDashChar, isFourChar]

/-- Claim C8: in both documents the identifying URIs embed `dataset.uuid`
verbatim as suffix: the IDS `@id`, the ODRL `uid`, and both singleton
permission targets. -/
theorem claim8_uris (d : Dataset) (c : PolicyConfig) (t : String) :
    (generateIDSPolicy d c).atId = "https://w3id.org/idsa/autogen/contract/" ++ d.uuid ∧
    (generateODRLPolicy d c t).uid = "http://example.com/policy/" ++ d.uuid ∧
    (generateIDSPolicy d c).permission.map (fun p => p.target.atId) =
      ["http://example.com/ids/target/" ++ d.uuid] ∧
    (generateODRLPolicy d c t).permission.map (fun p => p.target) =
      ["http://example.com/ids/data/" ++ d.uuid] := by
  rcases generateIDSPolicy_shape d c with h | ⟨x, h⟩ | ⟨cs, h⟩ <;>
    rcases generateODRLPolicy_shape d c t with h2 | ⟨y, h2⟩ | ⟨cs2, h2⟩ <;>
      rw [h, h2] <;>
        simp [baseIDSPolicy, idsWithConstraint, baseODRLPolicy, baseODRLPermission]

/-- Claim C9: on a `usage_count` config the compilers return the base
document exactly when the count is 0 (the truthiness guard treats 0 as
absent), and otherwise — including every negative count — attach the
count constraint carrying that value. -/
theorem claim9_zero_count (d : Dataset) (c : PolicyConfig) (t : String) (n : Int)
    (hty : c.type = PolicyType.usage_count)
    (hmx : c.maxUsageCount = some n) :
    generateIDSPolicy d c =
      (if n = 0 then baseIDSPolicy d else idsWithConstraint d [idsCountConstraint n]) ∧
    generateODRLPolicy d c t =
      (if n = 0 then baseODRLPolicy d t
       else { baseODRLPolicy d t with permission :=
                [{ baseODRLPermission d with constraint := some [odrlCountConstraint n] }] }) := by
  obtain ⟨ty, cons, conn, st, et, mx⟩ := c
  dsimp only at hty hmx
  subst hty hmx
  exact ⟨rfl, rfl⟩

/-- Witness for claim C9 at count 0: both conditionals collapse to the
base documents. -/
theorem claim9_zero_count_witness :
    generateIDSPolicy { id := 1, name := "N", description := "D", uuid := "u-1" }
        { type := PolicyType.usage_count, consumers := none, connectors := none,
          startTime := none, endTime := none, maxUsageCount := some 0 } =
      (if (0 : Int) = 0 then
         baseIDSPolicy { id := 1, name := "N", description := "D", uuid := "u-1" }
       else idsWithConstraint { id := 1, name := "N", description := "D", uuid := "u-1" }
         [idsCountConstraint 0]) ∧
    generateODRLPolicy { id := 1, name := "N", description := "D", uuid := "u-1" }
        { type := PolicyType.usage_count, consumers := none, connectors := none,
          startTime := none, endTime := none, maxUsageCount := some 0 } "T" =
      (if (0 : Int) = 0 then
         baseODRLPolicy { id := 1, name := "N", description := "D", uuid := "u-1" } "T"
       else { baseODRLPolicy { id := 1, name := "N", description := "D", uuid := "u-1" } "T" with
                permission :=
                  [{ baseODRLPermission { id := 1, name := "N", description := "D", uuid := "u-1" } with
                       constraint := some [odrlCountConstraint 0] }] }) :=
  claim9_zero_count _ _ "T" 0 rfl rfl

/-- Claim C10: for every dataset, config and clock reading, every field of
both documents other than the IDS consumer, the ODRL assignee and the
attached constraint list keeps its base-skeleton value, and each
permission list has exactly one element (captured by the singleton `map`
images). -/
theorem claim10_frame (d : Dataset) (c : PolicyConfig) (t : String) :
    (generateIDSPolicy d c).atContext =
      ⟨"https://w3id.org/idsa/core/", "https://w3id.org/idsa/code/"⟩ ∧
    (generateIDSPolicy d c).atType = "ids:ContractAgreement" ∧
    (generateIDSPolicy d c).atId = "https://w3id.org/idsa/autogen/contract/" ++ d.uuid ∧
    (generateIDSPolicy d c).profile = "http://example.com/ids-profile" ∧
    (generateIDSPolicy d c).provider = "http://example.com/party/data-provider" ∧
    (generateIDSPolicy d c).permission.map (fun p => (p.target, p.action)) =
      [(⟨"http://example.com/ids/target/" ++ d.uuid⟩, [⟨"idsc:USE"⟩])] ∧
    (generateODRLPolicy d c t).atContext =
      ⟨"http://www.w3.org/ns/odrl.jsonld", "http://purl.org/dc/terms/",
       "https://w3id.org/idsa/core/", "https://w3id.org/idsa/code/"⟩ ∧
    (generateODRLPolicy d c t).atType = "Agreement" ∧
    (generateODRLPolicy d c t).uid = "http://example.com/policy/" ++ d.uuid ∧
    (generateODRLPolicy d c t).profile = "http://www.w3.org/ns/odrl/2/core" ∧
    (generateODRLPolicy d c t).dcCreator = "Data Provider" ∧
    (generateODRLPolicy d c t).dcDescription = "Policy for dataset: " ++ d.name ∧
    (generateODRLPolicy d c t).permission.map (fun p => (p.target, p.assigner, p.action)) =
      [("http://example.com/ids/data/" ++ d.uuid,
        "http://example.com/ids/party/data-provider", "use")] := by
  rcases generateIDSPolicy_shape d c with h | ⟨x, h⟩ | ⟨cs, h⟩ <;>
    rcases generateODRLPolicy_shape d c t with h2 | ⟨y, h2⟩ | ⟨cs2, h2⟩ <;>
      rw [h, h2] <;>
        simp [baseIDSPolicy, idsWithConstraint, baseODRLPolicy, baseODRLPermission]
